import Mathlib

/-!
Shallow embedding of the mandrill API client (`src/mandrill.py`): the request
dispatcher `Mandrill.call`, the error classifier `Mandrill.cast_error`, the
credential resolution in `Mandrill.__init__` / `Mandrill.read_configs`, and the
JSON serialization/deserialization they route through.  Machine behaviour of
the Python runtime that the code relies on (dict membership and indexing,
`in` on strings and lists, KeyError / TypeError) is modelled explicitly.
-/

/-- JSON values as produced by `json.loads` and consumed by `json.dumps`.
Numbers are modelled as integers (the repository's payloads in scope use only
integral numbers; floats are out of scope). Objects are association lists in
insertion order, mirroring Python dicts. -/
inductive Json where
  | null : Json
  | bool (b : Bool) : Json
  | num (n : Int) : Json
  | str (s : String) : Json
  | arr (xs : List Json) : Json
  | obj (kvs : List (String × Json)) : Json

/-- Python dict lookup `d[k]` on an association list: first matching key. -/
def dictLookup : List (String × Json) → String → Option Json
  | [], _ => none
  | (k', v) :: rest, k => if k' = k then some v else dictLookup rest k

/-- Python dict assignment `d[k] = v`: replace the value in place if the key
exists (keeping its position), otherwise append the binding. -/
def dictInsert : List (String × Json) → String → Json → List (String × Json)
  | [], k, v => [(k, v)]
  | (k', v') :: rest, k, v =>
      if k' = k then (k', v) :: rest else (k', v') :: dictInsert rest k v

/-- Python `j == s` for a string literal `s`: true exactly when `j` is that
string (values of other types compare unequal to a string in Python). -/
def jsonEqStr (j : Json) (s : String) : Bool :=
  match j with
  | .str t => t = s
  | _ => false

/-- Python exceptions raised by the runtime itself (not by mandrill code):
`TypeError` from `in`/indexing on an unsupported type, `KeyError` from a dict
lookup of a missing key. -/
inductive PyCrash where
  | typeErr : PyCrash
  | keyErr (k : String) : PyCrash
deriving DecidableEq

/-- Substring test, the semantics of Python `pat in s` for strings. -/
def strContainsSub (s pat : String) : Bool :=
  (List.range (s.toList.length + 1)).any fun i =>
    pat.toList.isPrefixOf (s.toList.drop i)

/-- Python `k in j` for a string literal `k` against a JSON value: key
membership for dicts, substring test for strings, element membership for
lists, `TypeError` for the non-iterable scalars (None, bools, numbers). -/
def pyIn (k : String) (j : Json) : Except PyCrash Bool :=
  match j with
  | .obj kvs => .ok (dictLookup kvs k).isSome
  | .str s => .ok (strContainsSub s k)
  | .arr xs => .ok (xs.any fun x => jsonEqStr x k)
  | _ => .error .typeErr

/-- Python `j[k]` for a string literal `k`: dict lookup (raising `KeyError`
when missing), `TypeError` on every other JSON value (string and list indices
must be integers). -/
def pyGet (j : Json) (k : String) : Except PyCrash Json :=
  match j with
  | .obj kvs =>
      match dictLookup kvs k with
      | some v => .ok v
      | none => .error (.keyErr k)
  | _ => .error .typeErr

/-- The exception classes of `mandrill.py` (lines 10-33): the base `Error`
and the eleven specific subclasses. -/
inductive ErrKind where
  | Error : ErrKind
  | ValidationError : ErrKind
  | InvalidKeyError : ErrKind
  | UnknownTemplateError : ErrKind
  | InvalidTagNameError : ErrKind
  | InvalidRejectError : ErrKind
  | UnknownSenderError : ErrKind
  | UnknownUrlError : ErrKind
  | InvalidTemplateError : ErrKind
  | UnknownWebhookError : ErrKind
  | UnknownInboundDomainError : ErrKind
  | UnknownExportError : ErrKind
deriving DecidableEq

/-- The argument the exception is constructed with: `.msg m` models
`Kind(result["message"])`; `.unexpected body` models
`Error("We received an unexpected error: %r" % body)`, which embeds the raw
body in the message. -/
inductive ErrDetail where
  | msg (m : Json) : ErrDetail
  | unexpected (body : Json) : ErrDetail

/-- A constructed mandrill exception value. -/
structure MandrillError where
  kind : ErrKind
  detail : ErrDetail

/-- `ERROR_MAP` (mandrill.py lines 36-48), verbatim. -/
def ERROR_MAP : List (String × ErrKind) := [
  ("ValidationError", .ValidationError),
  ("Invalid_Key", .InvalidKeyError),
  ("Unknown_Template", .UnknownTemplateError),
  ("Invalid_Tag_Name", .InvalidTagNameError),
  ("Invalid_Reject", .InvalidRejectError),
  ("Unknown_Sender", .UnknownSenderError),
  ("Unknown_Url", .UnknownUrlError),
  ("Invalid_Template", .InvalidTemplateError),
  ("Unknown_Webhook", .UnknownWebhookError),
  ("Unknown_InboundDomain", .UnknownInboundDomainError),
  ("Unknown_Export", .UnknownExportError)]

/-- Association-list lookup in `ERROR_MAP`. -/
def errorMapFind : List (String × ErrKind) → String → Option ErrKind
  | [], _ => none
  | (k', v) :: rest, k => if k' = k then some v else errorMapFind rest k

/-- Python `v in ERROR_MAP`: key membership for hashable values (strings, and
trivially-false for None/bools/numbers), `TypeError` for unhashable lists and
dicts. -/
def pyInErrorMap (v : Json) : Except PyCrash Bool :=
  match v with
  | .str s => .ok (errorMapFind ERROR_MAP s).isSome
  | .arr _ => .error .typeErr
  | .obj _ => .error .typeErr
  | _ => .ok false

/-- Python `ERROR_MAP[v]`, only reached when `v in ERROR_MAP` held: `v` is
then a string key of the map. -/
def errorMapGet (v : Json) : ErrKind :=
  match v with
  | .str s => (errorMapFind ERROR_MAP s).getD .Error
  | _ => .Error

/-- Outcome of `cast_error`: it can `raise` (line 122), `return` an exception
value (lines 125-126), or crash with a runtime `TypeError`/`KeyError`. -/
inductive CastResult where
  | raised (e : MandrillError) : CastResult
  | returned (e : MandrillError) : CastResult
  | crash (c : PyCrash) : CastResult

/-- `Mandrill.cast_error` (mandrill.py lines 119-126), with Python's
short-circuit evaluation of
`not 'status' in result or result['status'] != 'error' or not 'name' in result`
and the unguarded `result['message']` lookups made explicit. -/
def cast_error (result : Json) : CastResult :=
  match pyIn "status" result with
  | .error c => .crash c
  | .ok false => .raised ⟨.Error, .unexpected result⟩
  | .ok true =>
    match pyGet result "status" with
    | .error c => .crash c
    | .ok sv =>
      if !jsonEqStr sv "error" then .raised ⟨.Error, .unexpected result⟩
      else
        match pyIn "name" result with
        | .error c => .crash c
        | .ok false => .raised ⟨.Error, .unexpected result⟩
        | .ok true =>
          match pyGet result "name" with
          | .error c => .crash c
          | .ok nameV =>
            match pyInErrorMap nameV with
            | .error c => .crash c
            | .ok true =>
              match pyGet result "message" with
              | .error c => .crash c
              | .ok msgV => .returned ⟨errorMapGet nameV, .msg msgV⟩
            | .ok false =>
              match pyGet result "message" with
              | .error c => .crash c
              | .ok msgV => .returned ⟨.Error, .msg msgV⟩

example : cast_error (Json.num 42) = .crash .typeErr := rfl
example :
    cast_error (Json.obj [("status", .str "error"), ("code", .num 5),
      ("name", .str "Unknown_Template"), ("message", .str "No such template")]) =
    .returned ⟨.UnknownTemplateError, .msg (.str "No such template")⟩ := rfl
example : cast_error (Json.str "PONG!") =
    .raised ⟨.Error, .unexpected (.str "PONG!")⟩ := rfl

/-- JSON string escaping as done by `json.dumps` for the characters the
repository's payloads can contain. -/
def dumpsEscape (s : String) : String :=
  s.toList.foldl (fun acc c =>
    if c = '"' then acc ++ "\\\""
    else if c = '\\' then acc ++ "\\\\"
    else if c = '\n' then acc ++ "\\n"
    else if c = '\t' then acc ++ "\\t"
    else if c = '\r' then acc ++ "\\r"
    else acc.push c) ""

mutual

/-- `json.dumps` with the standard library's default separators. -/
def dumps : Json → String
  | .null => "null"
  | .bool true => "true"
  | .bool false => "false"
  | .num n => toString n
  | .str s => "\"" ++ dumpsEscape s ++ "\""
  | .arr xs => "[" ++ dumpsArr xs ++ "]"
  | .obj kvs => "\x7b" ++ dumpsObj kvs ++ "\x7d"

/-- Comma-joined serialization of array elements. -/
def dumpsArr : List Json → String
  | [] => ""
  | [x] => dumps x
  | x :: y :: rest => dumps x ++ ", " ++ dumpsArr (y :: rest)

/-- Comma-joined serialization of object members. -/
def dumpsObj : List (String × Json) → String
  | [] => ""
  | [(k, v)] => "\"" ++ dumpsEscape k ++ "\": " ++ dumps v
  | (k, v) :: p :: rest =>
      "\"" ++ dumpsEscape k ++ "\": " ++ dumps v ++ ", " ++ dumpsObj (p :: rest)

end

/-- JSON whitespace skipping. -/
def skipWs : List Char → List Char
  | [] => []
  | c :: cs =>
      if c = ' ' ∨ c = '\t' ∨ c = '\n' ∨ c = '\r' then skipWs cs else c :: cs

/-- Decode one JSON string escape character. -/
def escChar (e : Char) : Option Char :=
  if e = '"' then some '"'
  else if e = '\\' then some '\\'
  else if e = '/' then some '/'
  else if e = 'n' then some '\n'
  else if e = 't' then some '\t'
  else if e = 'r' then some '\r'
  else if e = 'b' then some (Char.ofNat 8)
  else if e = 'f' then some (Char.ofNat 12)
  else none

/-- Parse the body of a JSON string after its opening quote, returning the
decoded characters and the input after the closing quote. -/
def parseStringChars : List Char → Option (List Char × List Char)
  | [] => none
  | c :: cs =>
    if c = '"' then some ([], cs)
    else if c = '\\' then
      match cs with
      | [] => none
      | e :: cs2 =>
        match escChar e with
        | none => none
        | some ch =>
          match parseStringChars cs2 with
          | some (s, rest) => some (ch :: s, rest)
          | none => none
    else
      match parseStringChars cs with
      | some (s, rest) => some (c :: s, rest)
      | none => none

/-- Split a leading run of decimal digits from the input. -/
def takeDigits : List Char → List Char × List Char
  | [] => ([], [])
  | c :: cs =>
    if c.isDigit then
      let (ds, rest) := takeDigits cs
      (c :: ds, rest)
    else ([], c :: cs)

/-- Decimal value of a digit run. -/
def digitsToNat (ds : List Char) : Nat :=
  ds.foldl (fun n c => n * 10 + (c.toNat - 48)) 0

/-- Opening curly bracket. -/
def lbrace : Char := Char.ofNat 123

/-- Closing curly bracket. -/
def rbrace : Char := Char.ofNat 125

mutual

/-- One JSON value by fuel-indexed recursive descent (the fuel bounds the
recursion depth; `loads` supplies more fuel than any input can use).
Models `json.loads` for the payloads in scope: null, booleans, integral
numbers, strings, arrays, objects; non-integral numbers are out of scope. -/
def parseVal : Nat → List Char → Option (Json × List Char)
  | 0, _ => none
  | fuel+1, input =>
    match skipWs input with
    | [] => none
    | c :: cs =>
      if c = 'n' then
        if cs.take 3 = ['u', 'l', 'l'] then some (.null, cs.drop 3) else none
      else if c = 't' then
        if cs.take 3 = ['r', 'u', 'e'] then some (.bool true, cs.drop 3) else none
      else if c = 'f' then
        if cs.take 4 = ['a', 'l', 's', 'e'] then some (.bool false, cs.drop 4)
        else none
      else if c = '"' then
        match parseStringChars cs with
        | some (s, rest) => some (.str (String.mk s), rest)
        | none => none
      else if c = '-' then
        match takeDigits cs with
        | ([], _) => none
        | (ds, rest) => some (.num (-(digitsToNat ds : Int)), rest)
      else if c.isDigit then
        match takeDigits (c :: cs) with
        | (ds, rest) => some (.num (digitsToNat ds : Int), rest)
      else if c = '[' then
        match skipWs cs with
        | ']' :: rest => some (.arr [], rest)
        | cs2 =>
          match parseArrItems fuel cs2 with
          | some (xs, rest) => some (.arr xs, rest)
          | none => none
      else if c = lbrace then
        match skipWs cs with
        | d :: rest =>
          if d = rbrace then some (.obj [], rest)
          else
            match parseObjItems fuel (d :: rest) with
            | some (kvs, rest2) =>
                some (.obj (kvs.foldl (fun acc p => dictInsert acc p.1 p.2) []),
                  rest2)
            | none => none
        | [] => none
      else none

/-- Array elements: `value` then `,` and more elements or `]`. -/
def parseArrItems : Nat → List Char → Option (List Json × List Char)
  | 0, _ => none
  | fuel+1, input =>
    match parseVal fuel input with
    | none => none
    | some (v, rest) =>
      match skipWs rest with
      | c :: rest2 =>
        if c = ',' then
          match parseArrItems fuel rest2 with
          | some (xs, rest3) => some (v :: xs, rest3)
          | none => none
        else if c = ']' then some ([v], rest2)
        else none
      | [] => none

/-- Object members: `"key" : value` then `,` and more members or the closing
curly bracket. -/
def parseObjItems : Nat → List Char → Option (List (String × Json) × List Char)
  | 0, _ => none
  | fuel+1, input =>
    match skipWs input with
    | '"' :: cs =>
      match parseStringChars cs with
      | none => none
      | some (kcs, rest) =>
        match skipWs rest with
        | ':' :: rest2 =>
          match parseVal fuel rest2 with
          | none => none
          | some (v, rest3) =>
            match skipWs rest3 with
            | c :: rest4 =>
              if c = ',' then
                match parseObjItems fuel rest4 with
                | some (kvs, rest5) => some ((String.mk kcs, v) :: kvs, rest5)
                | none => none
              else if c = rbrace then some ([(String.mk kcs, v)], rest4)
              else none
            | [] => none
        | _ => none
    | _ => none

end

/-- `json.loads`: parse one JSON document followed by nothing but whitespace;
`none` models the decode exception on malformed input. -/
def loads (s : String) : Option Json :=
  match parseVal (s.length + 2) s.toList with
  | some (v, rest) => if skipWs rest = [] then some v else none
  | none => none

example : loads "\"PONG!\"" = some (.str "PONG!") := rfl

/-- An HTTP response as the stub transport delivers it: `r.status_code` and
`r.text`.  `requests.codes.ok` is the numeral 200. -/
structure Response where
  status_code : Nat
  body : String

/-- The diagnostic record stored into `self.last_request` (line 111).  The
`remote_addr` and raw response-object entries of that dict are transport
introspection, represented here by the response itself; `time` is the
elapsed wall-clock duration. -/
structure LastRequest where
  url : String
  request_body : String
  response_body : String
  response : Response
  time : Nat

/-- The mutable state of a `Mandrill` client instance: the resolved API key,
the logging level, the HTTP session (opaque token) and the diagnostic slot. -/
structure Client where
  apikey : String
  level : Nat
  session : Nat
  last_request : Option LastRequest

/-- What `call` does from the caller's point of view: return the parsed body,
raise a mandrill exception, crash inside `cast_error`, or fail decoding the
response body as JSON. -/
inductive CallOutcome where
  | returns (v : Json) : CallOutcome
  | raises (e : MandrillError) : CallOutcome
  | crash (c : PyCrash) : CallOutcome
  | jsonDecodeError : CallOutcome

/-- Result of one `call`: the outcome, the client state after, and the final
contents of the dictionary object the caller passed as `params` (`none` when
the caller passed `None`, in which case a fresh local dict was used and the
caller has nothing to observe). -/
structure CallResult where
  outcome : CallOutcome
  client_after : Client
  caller_dict_after : Option (List (String × Json))

/-- `Mandrill.call` (mandrill.py lines 95-117) against a stub transport that
delivers `resp` after `elapsed` time: line 97 defaults `params`, line 98
assigns `params['key'] = self.apikey` (mutating the caller's dict), line 99
serializes, line 111 overwrites `self.last_request`, line 113 parses the
response body, and lines 115-117 raise `cast_error`'s result when
`status_code != requests.codes.ok` (200) and return the parsed body
otherwise.  An exception raised inside `cast_error` propagates to the caller
just as the `raise` of its returned value does. -/
def call (c : Client) (url : String) (params : Option (List (String × Json)))
    (resp : Response) (elapsed : Nat) : CallResult :=
  let dict1 := dictInsert (params.getD []) "key" (Json.str c.apikey)
  let body := dumps (Json.obj dict1)
  let lr : LastRequest := ⟨url, body, resp.body, resp, elapsed⟩
  let c1 : Client := { c with last_request := some lr }
  let callerAfter := params.map fun _ => dict1
  let outcome :=
    match loads resp.body with
    | none => CallOutcome.jsonDecodeError
    | some result =>
      if resp.status_code ≠ 200 then
        match cast_error result with
        | .raised e => CallOutcome.raises e
        | .returned e => CallOutcome.raises e
        | .crash cr => CallOutcome.crash cr
      else CallOutcome.returns result
  ⟨outcome, c1, callerAfter⟩

/-- The ambient configuration `__init__` consults: the `MANDRILL_APIKEY`
environment variable and the contents of `~/.mandrill.key` and
`/etc/mandrill.key` (`none` models an absent variable resp. an
unreadable/absent file; any file error is swallowed by the bare `except`). -/
structure Env where
  mandrill_apikey : Option String
  home_key_file : Option String
  etc_key_file : Option String

/-- Python `str.strip()` with no argument: remove leading and trailing
whitespace. -/
def pyStrip (s : String) : String :=
  String.mk
    (((s.toList.dropWhile Char.isWhitespace).reverse.dropWhile
        Char.isWhitespace).reverse)

/-- The loop of `Mandrill.read_configs` (lines 128-141) over the file
contents in path order: take the first file whose stripped contents are
non-empty. -/
def read_configs_from : List (Option String) → Option String
  | [] => none
  | none :: rest => read_configs_from rest
  | some content :: rest =>
      let apikey := pyStrip content
      if apikey ≠ "" then some apikey else read_configs_from rest

/-- `Mandrill.read_configs` over `['~/.mandrill.key', '/etc/mandrill.key']`. -/
def read_configs (env : Env) : Option String :=
  read_configs_from [env.home_key_file, env.etc_key_file]

/-- `Mandrill.__init__` (lines 55-80) up to the namespace-object wiring:
keep an explicit `apikey` argument; with `None`, fall back to the
`MANDRILL_APIKEY` environment variable, then to `read_configs`; raise
`Error('You must provide a Mandrill API key')` exactly when the result is
still `None`.  `logging.INFO` is 20 and `logging.DEBUG` is 10. -/
def mandrill_init (apikey : Option String) (env : Env) (session : Nat)
    (debug : Bool) : Except String Client :=
  let level := if debug then 20 else 10
  let resolved :=
    match apikey with
    | some k => some k
    | none =>
      match env.mandrill_apikey with
      | some e => some e
      | none => read_configs env
  match resolved with
  | none => .error "You must provide a Mandrill API key"
  | some k => .ok ⟨k, level, session, none⟩

/-- A concrete client used by the witness scenarios. -/
def stubClient : Client := ⟨"KEY", 10, 0, none⟩

example :
    (call stubClient "users/ping" (some []) ⟨200, "\"PONG!\""⟩ 0).outcome =
    .returns (.str "PONG!") := rfl
example :
    loads "\x7b\"status\":\"error\",\"code\":5,\"name\":\"Unknown_Template\",\"message\":\"No such template\"\x7d" =
    some (Json.obj [("status", .str "error"), ("code", .num 5),
      ("name", .str "Unknown_Template"), ("message", .str "No such template")]) := rfl
example :
    mandrill_init none ⟨some "", none, none⟩ 0 false = .ok ⟨"", 10, 0, none⟩ := rfl

theorem jsonEqStr_eq_true_iff (j : Json) (s : String) :
    jsonEqStr j s = true ↔ j = Json.str s := by
  cases j <;> simp [jsonEqStr]

theorem dictLookup_dictInsert_self (d : List (String × Json)) (k : String)
    (v : Json) : dictLookup (dictInsert d k v) k = some v := by
  induction d with
  | nil => simp [dictInsert, dictLookup]
  | cons p rest ih =>
    obtain ⟨k', v'⟩ := p
    by_cases h : k' = k
    · simp [dictInsert, dictLookup, h]
    · simp [dictInsert, dictLookup, h, ih]

theorem read_configs_from_ne_empty (l : List (Option String)) (k : String)
    (h : read_configs_from l = some k) : k ≠ "" := by
  induction l with
  | nil => simp [read_configs_from] at h
  | cons hd tl ih =>
    cases hd with
    | none =>
      exact ih (by simpa [read_configs_from] using h)
    | some content =>
      by_cases hc : pyStrip content = ""
      · simp [read_configs_from, hc] at h
        exact ih h
      · simp [read_configs_from, hc] at h
        intro he
        exact hc (h.trans he)

/-- Claim C1: for every HTTP response with the success status 200 ("OK")
whose body is well-formed JSON, `call` returns the parsed JSON value
unchanged to the caller. -/
theorem call_ok_returns_parsed (c : Client) (url : String)
    (params : Option (List (String × Json))) (resp : Response) (elapsed : Nat)
    (v : Json) (hst : resp.status_code = 200) (hb : loads resp.body = some v) :
    (call c url params resp elapsed).outcome = CallOutcome.returns v := by
  simp [call, hb, hst]

/-- Claim C1 witness: `call("users/ping", dict())` against a stub transport
returning HTTP 200 with body `"PONG!"` returns the string `PONG!`. -/
theorem call_ok_returns_parsed_witness :
    (⟨200, "\"PONG!\""⟩ : Response).status_code = 200 ∧
    loads "\"PONG!\"" = some (Json.str "PONG!") ∧
    (call stubClient "users/ping" (some []) ⟨200, "\"PONG!\""⟩ 0).outcome =
      CallOutcome.returns (Json.str "PONG!") :=
  ⟨rfl, rfl, call_ok_returns_parsed stubClient "users/ping" (some [])
    ⟨200, "\"PONG!\""⟩ 0 (Json.str "PONG!") rfl rfl⟩

/-- Claim C2: for every error body that is a mapping with status `"error"`,
a name present in `ERROR_MAP` and a message field, `cast_error` returns the
specific exception kind mapped to that name, carrying the body's message. -/
theorem cast_error_known_name (kvs : List (String × Json)) (name : String)
    (msg : Json) (kind : ErrKind)
    (hs : dictLookup kvs "status" = some (Json.str "error"))
    (hn : dictLookup kvs "name" = some (Json.str name))
    (hk : errorMapFind ERROR_MAP name = some kind)
    (hm : dictLookup kvs "message" = some msg) :
    cast_error (Json.obj kvs) =
      CastResult.returned ⟨kind, ErrDetail.msg msg⟩ := by
  simp [cast_error, pyIn, pyGet, pyInErrorMap, errorMapGet, jsonEqStr,
    hs, hn, hk, hm]

/-- Claim C2 witness: name `Unknown_Template` with message
`No such template` yields the unknown-template kind with that message, name
`Invalid_Key` yields the invalid-key kind, and the `templates/info` stub
scenario (HTTP 500) raises the unknown-template kind from `call`. -/
theorem cast_error_known_name_witness :
    cast_error (Json.obj [("status", .str "error"), ("code", .num 5),
        ("name", .str "Unknown_Template"),
        ("message", .str "No such template")]) =
      CastResult.returned ⟨.UnknownTemplateError,
        .msg (.str "No such template")⟩ ∧
    cast_error (Json.obj [("status", .str "error"),
        ("name", .str "Invalid_Key"), ("message", .str "bad key")]) =
      CastResult.returned ⟨.InvalidKeyError, .msg (.str "bad key")⟩ ∧
    (call stubClient "templates/info" (some [("name", .str "missing")])
        ⟨500, "\x7b\"status\":\"error\",\"code\":5,\"name\":\"Unknown_Template\",\"message\":\"No such template\"\x7d"⟩
        0).outcome =
      CallOutcome.raises ⟨.UnknownTemplateError,
        .msg (.str "No such template")⟩ :=
  ⟨cast_error_known_name _ "Unknown_Template" _ _ rfl rfl rfl rfl,
   cast_error_known_name _ "Invalid_Key" _ _ rfl rfl rfl rfl,
   rfl⟩

/-- Claim C3: for every error body that is a mapping with status `"error"`,
a name absent from `ERROR_MAP`, and a message field, `cast_error` returns the
generic base `Error` kind carrying the body's message — it never crashes with
a lookup error on the unknown name. -/
theorem cast_error_unknown_name (kvs : List (String × Json)) (name : String)
    (msg : Json)
    (hs : dictLookup kvs "status" = some (Json.str "error"))
    (hn : dictLookup kvs "name" = some (Json.str name))
    (hk : errorMapFind ERROR_MAP name = none)
    (hm : dictLookup kvs "message" = some msg) :
    cast_error (Json.obj kvs) =
      CastResult.returned ⟨ErrKind.Error, ErrDetail.msg msg⟩ := by
  simp [cast_error, pyIn, pyGet, pyInErrorMap, jsonEqStr, hs, hn, hk, hm]

/-- Claim C3 witness: the unknown name `Something_New` yields the generic
error kind with the body's message. -/
theorem cast_error_unknown_name_witness :
    errorMapFind ERROR_MAP "Something_New" = none ∧
    cast_error (Json.obj [("status", .str "error"),
        ("name", .str "Something_New"), ("message", .str "m")]) =
      CastResult.returned ⟨ErrKind.Error, ErrDetail.msg (.str "m")⟩ :=
  ⟨rfl, cast_error_unknown_name _ "Something_New" _ rfl rfl rfl rfl⟩

/-- Claim C4 counterexample: the body `42` (a well-formed JSON number, not a
mapping) makes `cast_error` crash with a `TypeError` — Python evaluates
`'status' in 42` — instead of producing the generic error kind, and a caller
of `call` receiving HTTP 500 with body `42` observes that crash, not a raised
generic error. -/
theorem cast_error_nonmapping_counterexample :
    cast_error (Json.num 42) = CastResult.crash PyCrash.typeErr ∧
    cast_error (Json.num 42) ≠
      CastResult.raised ⟨ErrKind.Error, ErrDetail.unexpected (Json.num 42)⟩ ∧
    (call stubClient "users/ping" (some []) ⟨500, "42"⟩ 0).outcome =
      CallOutcome.crash PyCrash.typeErr :=
  ⟨rfl, fun h => CastResult.noConfusion h, rfl⟩

/-- Claim C4 amended: for every body that IS a mapping but lacks a status
field equal to `"error"` or lacks a name field, `cast_error` raises the
generic error kind carrying the raw body, and the caller of `call` observes
that generic kind raised; bodies that are not mappings are outside this
guarantee (non-iterable scalars crash with a `TypeError`). -/
theorem cast_error_malformed_mapping (kvs : List (String × Json))
    (h : dictLookup kvs "status" ≠ some (Json.str "error") ∨
         dictLookup kvs "name" = none) :
    cast_error (Json.obj kvs) =
      CastResult.raised ⟨ErrKind.Error, ErrDetail.unexpected (Json.obj kvs)⟩ ∧
    ∀ (c : Client) (url : String) (params : Option (List (String × Json)))
      (resp : Response) (elapsed : Nat),
      resp.status_code ≠ 200 → loads resp.body = some (Json.obj kvs) →
      (call c url params resp elapsed).outcome =
        CallOutcome.raises
          ⟨ErrKind.Error, ErrDetail.unexpected (Json.obj kvs)⟩ := by
  have hc : cast_error (Json.obj kvs) =
      CastResult.raised ⟨ErrKind.Error, ErrDetail.unexpected (Json.obj kvs)⟩ := by
    rcases h with h | h
    · cases hs : dictLookup kvs "status" with
      | none => simp [cast_error, pyIn, hs]
      | some sv =>
        have hne : jsonEqStr sv "error" = false := by
          rw [Bool.eq_false_iff]
          intro hv
          exact h (by rw [hs, (jsonEqStr_eq_true_iff sv "error").mp hv])
        simp [cast_error, pyIn, pyGet, hs, hne]
    · cases hs : dictLookup kvs "status" with
      | none => simp [cast_error, pyIn, hs]
      | some sv =>
        by_cases hv : jsonEqStr sv "error" = true
        · simp [cast_error, pyIn, pyGet, hs, hv, h]
        · simp [cast_error, pyIn, pyGet, hs, Bool.eq_false_iff.mpr hv]
  refine ⟨hc, ?_⟩
  intro c url params resp elapsed hst hb
  simp [call, hb, hst, hc]

/-- Claim C4 amended witness: the mapping body with status `"ok"` yields the
raised generic kind from `cast_error` and from `call` under HTTP 500. -/
theorem cast_error_malformed_mapping_witness :
    cast_error (Json.obj [("status", Json.str "ok")]) =
      CastResult.raised ⟨ErrKind.Error,
        ErrDetail.unexpected (Json.obj [("status", Json.str "ok")])⟩ ∧
    (call stubClient "users/ping" (some [])
        ⟨500, "\x7b\"status\": \"ok\"\x7d"⟩ 0).outcome =
      CallOutcome.raises ⟨ErrKind.Error,
        ErrDetail.unexpected (Json.obj [("status", Json.str "ok")])⟩ :=
  ⟨(cast_error_malformed_mapping [("status", Json.str "ok")]
      (Or.inl (by simp [dictLookup]))).1,
   (cast_error_malformed_mapping [("status", Json.str "ok")]
      (Or.inl (by simp [dictLookup]))).2 stubClient "users/ping" (some [])
      ⟨500, "\x7b\"status\": \"ok\"\x7d"⟩ 0 (by decide) rfl⟩

/-- Claim C5 counterexample: HTTP 201 is a 2xx success status, yet `call`
raises (the body `"PONG!"` is not a mapping containing `status`, so the
generic kind is raised) instead of returning the decoded payload. -/
theorem call_status_201_raises_counterexample :
    (200 ≤ 201 ∧ 201 < 300) ∧
    (call stubClient "users/ping" (some []) ⟨201, "\"PONG!\""⟩ 0).outcome =
      CallOutcome.raises
        ⟨ErrKind.Error, ErrDetail.unexpected (Json.str "PONG!")⟩ ∧
    (call stubClient "users/ping" (some []) ⟨201, "\"PONG!\""⟩ 0).outcome ≠
      CallOutcome.returns (Json.str "PONG!") :=
  ⟨⟨by decide, by decide⟩, rfl, fun h => CallOutcome.noConfusion h⟩

/-- Claim C5 amended: `call` returns the decoded payload exactly for HTTP
status 200 (`requests.codes.ok`); for any other status — including other 2xx
statuses — it never returns a value: it raises the classifier's result (or
propagates the classifier's crash). -/
theorem call_raises_iff_status_ne_200 (c : Client) (url : String)
    (params : Option (List (String × Json))) (resp : Response)
    (elapsed : Nat) :
    (resp.status_code = 200 → ∀ v, loads resp.body = some v →
      (call c url params resp elapsed).outcome = CallOutcome.returns v) ∧
    (resp.status_code ≠ 200 → ∀ v,
      (call c url params resp elapsed).outcome ≠ CallOutcome.returns v) := by
  constructor
  · intro hst v hb
    simp [call, hb, hst]
  · intro hst v
    simp only [call]
    cases hb : loads resp.body with
    | none => simp
    | some result =>
      simp only [hst, if_true, ne_eq, not_false_iff, ite_not]
      cases cast_error result <;> simp
/-- Claim C5 amended witness: status 200 returns the decoded `PONG!`; status
500 with the same body does not return it. -/
theorem call_raises_iff_status_ne_200_witness :
    (call stubClient "users/ping" (some []) ⟨200, "\"PONG!\""⟩ 0).outcome =
      CallOutcome.returns (Json.str "PONG!") ∧
    (call stubClient "users/ping" (some []) ⟨500, "\"PONG!\""⟩ 0).outcome ≠
      CallOutcome.returns (Json.str "PONG!") :=
  ⟨(call_raises_iff_status_ne_200 stubClient "users/ping" (some [])
      ⟨200, "\"PONG!\""⟩ 0).1 rfl _ rfl,
   (call_raises_iff_status_ne_200 stubClient "users/ping" (some [])
      ⟨500, "\"PONG!\""⟩ 0).2 (by decide) _⟩

/-- Claim C6 counterexample: with no explicit argument, `MANDRILL_APIKEY` set
to the empty string, and no readable key file, no source yields a non-empty
value — yet construction succeeds with an empty credential instead of
failing with the configuration error. -/
theorem init_empty_env_var_counterexample :
    mandrill_init none ⟨some "", none, none⟩ 0 false =
      Except.ok ⟨"", 10, 0, none⟩ ∧
    mandrill_init none ⟨some "", none, none⟩ 0 false ≠
      Except.error "You must provide a Mandrill API key" :=
  ⟨rfl, fun h => Except.noConfusion h⟩

/-- Claim C6 amended: construction tries, in priority order, the explicit
argument, the environment variable, then the two key files (file contents
trimmed and used only when non-empty), and fails with the configuration
error exactly when the explicit argument is absent, the environment variable
is unset, and neither file yields a non-empty trimmed value.  A present
explicit argument or environment variable is accepted even when empty. -/
theorem init_resolution_order (apikey : Option String) (env : Env)
    (session : Nat) (debug : Bool) :
    (mandrill_init apikey env session debug =
        Except.error "You must provide a Mandrill API key" ↔
      apikey = none ∧ env.mandrill_apikey = none ∧ read_configs env = none) ∧
    (∀ k, apikey = some k →
      mandrill_init apikey env session debug =
        Except.ok ⟨k, if debug then 20 else 10, session, none⟩) ∧
    (∀ e, apikey = none → env.mandrill_apikey = some e →
      mandrill_init apikey env session debug =
        Except.ok ⟨e, if debug then 20 else 10, session, none⟩) ∧
    (∀ k, apikey = none → env.mandrill_apikey = none →
      read_configs env = some k →
      mandrill_init apikey env session debug =
        Except.ok ⟨k, if debug then 20 else 10, session, none⟩) ∧
    (∀ k, read_configs env = some k → k ≠ "") := by
  refine ⟨?_, ?_, ?_, ?_, ?_⟩
  · cases apikey with
    | some k => simp [mandrill_init]
    | none =>
      cases he : env.mandrill_apikey with
      | some e => simp [mandrill_init, he]
      | none =>
        cases hr : read_configs env with
        | some k => simp [mandrill_init, he, hr]
        | none => simp [mandrill_init, he, hr]
  · intro k hk
    subst hk
    simp [mandrill_init]
  · intro e ha he
    subst ha
    simp [mandrill_init, he]
  · intro k ha he hr
    subst ha
    simp [mandrill_init, he, hr]
  · intro k hr
    exact read_configs_from_ne_empty _ k hr

/-- Claim C6 amended witness: no source at all fails with the configuration
error; an explicit key, an environment key, and a file key (trimmed) each
succeed in priority position. -/
theorem init_resolution_order_witness :
    mandrill_init none ⟨none, none, none⟩ 0 false =
      Except.error "You must provide a Mandrill API key" ∧
    mandrill_init (some "abc") ⟨none, none, none⟩ 0 false =
      Except.ok ⟨"abc", 10, 0, none⟩ ∧
    mandrill_init none ⟨some "envkey", none, none⟩ 0 false =
      Except.ok ⟨"envkey", 10, 0, none⟩ ∧
    mandrill_init none ⟨none, some "  filekey \n", none⟩ 0 false =
      Except.ok ⟨"filekey", 10, 0, none⟩ :=
  ⟨(init_resolution_order none ⟨none, none, none⟩ 0 false).1.mpr
      ⟨rfl, rfl, rfl⟩,
   (init_resolution_order (some "abc") ⟨none, none, none⟩ 0 false).2.1
      "abc" rfl,
   (init_resolution_order none ⟨some "envkey", none, none⟩ 0 false).2.2.1
      "envkey" rfl rfl,
   (init_resolution_order none ⟨none, some "  filekey \n", none⟩ 0
      false).2.2.2.1 "filekey" rfl rfl rfl⟩

/-- Claim C7: `call` inserts the client's credential under the reserved key
`"key"` into the parameter mapping before serialization, overwriting any
caller-supplied value under that key, and the serialized request body stored
for the call is exactly the dump of that merged mapping. -/
theorem call_injects_key (c : Client) (url : String)
    (d : List (String × Json)) (resp : Response) (elapsed : Nat) :
    dictLookup (dictInsert d "key" (Json.str c.apikey)) "key" =
      some (Json.str c.apikey) ∧
    (call c url (some d) resp elapsed).client_after.last_request =
      some ⟨url, dumps (Json.obj (dictInsert d "key" (Json.str c.apikey))),
        resp.body, resp, elapsed⟩ :=
  ⟨dictLookup_dictInsert_self d "key" (Json.str c.apikey), rfl⟩

/-- Claim C8: every invocation of `call`, including one that ends by raising
a classified error, overwrites the single `last_request` slot with exactly
that call's record (url, serialized request body, response body, response,
elapsed time) — independent of any previous contents — and leaves the
credential, session and log level of the client unchanged. -/
theorem call_frame (c : Client) (url : String)
    (params : Option (List (String × Json))) (resp : Response)
    (elapsed : Nat) :
    (call c url params resp elapsed).client_after.last_request =
      some ⟨url,
        dumps (Json.obj (dictInsert (params.getD []) "key"
          (Json.str c.apikey))),
        resp.body, resp, elapsed⟩ ∧
    (call c url params resp elapsed).client_after.apikey = c.apikey ∧
    (call c url params resp elapsed).client_after.level = c.level ∧
    (call c url params resp elapsed).client_after.session = c.session :=
  ⟨rfl, rfl, rfl, rfl⟩

/-- Claim C9: `call` mutates the caller-supplied parameter dictionary in
place — after the call (whether it returned or raised), the caller's own
dictionary contains the reserved key `"key"` bound to the client's
credential. -/
theorem call_mutates_caller_params (c : Client) (url : String)
    (d : List (String × Json)) (resp : Response) (elapsed : Nat) :
    (call c url (some d) resp elapsed).caller_dict_after =
      some (dictInsert d "key" (Json.str c.apikey)) ∧
    dictLookup ((call c url (some d) resp elapsed).caller_dict_after.getD [])
      "key" = some (Json.str c.apikey) :=
  ⟨rfl, dictLookup_dictInsert_self d "key" (Json.str c.apikey)⟩

/-- Claim C10: for a mapping body with status `"error"` and a name field but
no message field, `cast_error`'s unguarded lookup of `result['message']`
crashes with a `KeyError` — whether or not the name is in `ERROR_MAP` —
instead of producing a classified or generic error kind. -/
theorem cast_error_missing_message_keyerror (kvs : List (String × Json))
    (name : String)
    (hs : dictLookup kvs "status" = some (Json.str "error"))
    (hn : dictLookup kvs "name" = some (Json.str name))
    (hm : dictLookup kvs "message" = none) :
    cast_error (Json.obj kvs) =
      CastResult.crash (PyCrash.keyErr "message") := by
  cases hk : errorMapFind ERROR_MAP name <;>
    simp [cast_error, pyIn, pyGet, pyInErrorMap, jsonEqStr, hs, hn, hm, hk]

/-- Claim C10 witness: a taxonomy name (`Invalid_Key`) and an unknown name
(`Something_New`), each without a message field, both crash with the
`KeyError` on `message`. -/
theorem cast_error_missing_message_keyerror_witness :
    cast_error (Json.obj [("status", .str "error"),
        ("name", .str "Invalid_Key")]) =
      CastResult.crash (PyCrash.keyErr "message") ∧
    cast_error (Json.obj [("status", .str "error"),
        ("name", .str "Something_New")]) =
      CastResult.crash (PyCrash.keyErr "message") :=
  ⟨cast_error_missing_message_keyerror _ "Invalid_Key" rfl rfl rfl,
   cast_error_missing_message_keyerror _ "Something_New" rfl rfl rfl⟩
